import Mathlib

/-!
Verification of the clock-prescaler reconfiguration protocol of the
rustduino HAL (`src/atmega2560p/hal/prescalar.rs`).

The embedding models the memory-mapped `Prescalar` structure (its `CLKPR`
and `OSCCAL` byte registers), the global interrupt-enable flag, and the
`enable_clock` routine as a pure function from a machine state and a
requested division factor to a call result.  The call result records the
outcome (normal return or panic via `unreachable!()`), the final machine
state, the ordered list of bus/no-op events issued by the call, and the
list of intermediate machine states visited after each step, so that
trace-shaped and invariant-shaped properties can be stated directly.
-/

/-- Which byte register of the `Prescalar` structure a bus event touches. -/
inductive Reg where
  | CLKPR : Reg
  | OSCCAL : Reg
deriving Repr, DecidableEq

/-- One observable step of `enable_clock`: a volatile read (with the value
returned), a volatile write (with the value written), or the `__nop()`
stabilization cycle. -/
inductive Ev where
  | read : Reg → Nat → Ev
  | write : Reg → Nat → Ev
  | nop : Ev
deriving Repr, DecidableEq

/-- The memory-mapped register block from the source:
`CLKPR` (clock prescale register) and `OSCCAL` (oscillator calibration),
modelled as natural-number byte values. -/
structure Prescalar where
  CLKPR : Nat
  OSCCAL : Nat
deriving Repr, DecidableEq

/-- The machine state visible to the protocol: the register block together
with the global interrupt-enable flag. -/
structure Machine where
  regs : Prescalar
  intEnabled : Bool
deriving Repr, DecidableEq

/-- Modelled from the spec: the interrupt module
(`atmega2560p/hal/interrupt.rs`) is not part of the provided sources.  Per
the spec's InterruptGuard contract, acquisition snapshots the prior value
of the global interrupt-enable flag and release restores exactly that
prior value, so the `Status` object carries the snapshot. -/
structure Status where
  saved : Bool
deriving Repr, DecidableEq

/-- Modelled from the spec: `interrupt::Status::new()` constructs the
controller object; the snapshot field is only meaningful after `disable`. -/
def Status.new : Status := { saved := true }

/-- Modelled from the spec: `disable()` clears the global interrupt-enable
flag and records its prior value in the guard. -/
def Status.disable (_itr : Status) (m : Machine) : Status × Machine :=
  ({ saved := m.intEnabled }, { m with intEnabled := false })

/-- Modelled from the spec: `enable()` releases the guard, restoring the
interrupt-enable flag to the prior value recorded at acquisition
(re-enabling only if it was enabled before). -/
def Status.enable (itr : Status) (m : Machine) : Machine :=
  { m with intEnabled := itr.saved }

/-- How a call to `enable_clock` terminated: a normal return, or the
`unreachable!()` panic taken when the requested divisor is not legal. -/
inductive Outcome where
  | ok : Outcome
  | panicked : Outcome
deriving Repr, DecidableEq

/-- The full observable behaviour of one call to `enable_clock`:
termination mode, machine state at return (or at the panic point), the
ordered event trace, and the intermediate machine states after each step. -/
structure CallResult where
  outcome : Outcome
  final : Machine
  events : List Ev
  states : List Machine
deriving Repr, DecidableEq

/-- The select code the source's if-else chain writes for each requested
division factor (`freq == 1` writes `0x00`, …, `freq == 256` writes
`0x08`); `none` corresponds to the final `unreachable!()` branch. -/
def clkpsCode (freq : Nat) : Option Nat :=
  if freq = 1 then some 0x00
  else if freq = 2 then some 0x01
  else if freq = 4 then some 0x02
  else if freq = 8 then some 0x03
  else if freq = 16 then some 0x04
  else if freq = 32 then some 0x05
  else if freq = 64 then some 0x06
  else if freq = 128 then some 0x07
  else if freq = 256 then some 0x08
  else none

/-- Direct embedding of `Prescalar::enable_clock` from
`src/atmega2560p/hal/prescalar.rs`: construct the interrupt guard and
disable global interrupts; volatile-read `CLKPR` (the value is bound but
never used); volatile-write `0x80`; execute one `__nop()`; then either
volatile-write the select code for a legal factor and re-enable
interrupts, or hit `unreachable!()` (a panic, with interrupts still
disabled and `CLKPR` still holding `0x80`). -/
def enable_clock (m0 : Machine) (freq : Nat) : CallResult :=
  let itr := Status.new
  let acq := Status.disable itr m0
  let itr1 := acq.1
  let m1 := acq.2
  let clkpr := m1.regs.CLKPR
  let m2 : Machine := { m1 with regs := { m1.regs with CLKPR := 0x80 } }
  match clkpsCode freq with
  | some code =>
      let m3 : Machine := { m2 with regs := { m2.regs with CLKPR := code } }
      let m4 := Status.enable itr1 m3
      { outcome := Outcome.ok
        final := m4
        events := [Ev.read Reg.CLKPR clkpr, Ev.write Reg.CLKPR 0x80,
                   Ev.nop, Ev.write Reg.CLKPR code]
        states := [m1, m1, m2, m2, m3, m4] }
  | none =>
      { outcome := Outcome.panicked
        final := m2
        events := [Ev.read Reg.CLKPR clkpr, Ev.write Reg.CLKPR 0x80, Ev.nop]
        states := [m1, m1, m2, m2] }

/-- The write event's field and value, if the event is a write. -/
def writeOf (e : Ev) : Option (Reg × Nat) :=
  match e with
  | Ev.write f v => some (f, v)
  | _ => none

/-- The ordered sequence of register writes observed during a call. -/
def writeSeq (r : CallResult) : List (Reg × Nat) :=
  r.events.filterMap writeOf

/-- Whether an event is a volatile read. -/
def isRead (e : Ev) : Bool :=
  match e with
  | Ev.read _ _ => true
  | _ => false

/-- Whether an event touches the `OSCCAL` register. -/
def isOSCCALAccess (e : Ev) : Bool :=
  match e with
  | Ev.read Reg.OSCCAL _ => true
  | Ev.write Reg.OSCCAL _ => true
  | _ => false

/-- C5: Scenario A — with the register initialized to `0x00`, calling
`enable_clock(8)` produces the write sequence exactly `[0x80, 0x03]` (no
other writes) and leaves the stored value of `CLKPR` at `0x03`. -/
theorem scenarioA_writes_0x80_then_0x03 :
    writeSeq (enable_clock ⟨⟨0x00, 0x00⟩, true⟩ 8) =
      [(Reg.CLKPR, 0x80), (Reg.CLKPR, 0x03)] ∧
    (enable_clock ⟨⟨0x00, 0x00⟩, true⟩ 8).final.regs.CLKPR = 0x03 := by
  decide

/-- C6: Scenario C — calling `enable_clock(16)` and then `enable_clock(1)`
sequentially produces exactly four register writes, in order
`[0x80, 0x04, 0x80, 0x00]`, and the final stored value of `CLKPR` is
`0x00`. -/
theorem scenarioC_two_calls_four_writes :
    writeSeq (enable_clock ⟨⟨0x00, 0x00⟩, true⟩ 16) ++
      writeSeq (enable_clock (enable_clock ⟨⟨0x00, 0x00⟩, true⟩ 16).final 1) =
        [(Reg.CLKPR, 0x80), (Reg.CLKPR, 0x04),
         (Reg.CLKPR, 0x80), (Reg.CLKPR, 0x00)] ∧
    (enable_clock (enable_clock ⟨⟨0x00, 0x00⟩, true⟩ 16).final 1).final.regs.CLKPR
      = 0x00 := by
  decide

/-- Every select code the if-else chain can write is at most `0x08`. -/
theorem clkpsCode_le_8 (freq c : Nat) (h : clkpsCode freq = some c) :
    c ≤ 8 := by
  unfold clkpsCode at h
  split_ifs at h <;> simp_all <;> omega

/-- C1 counterexample: calling `enable_clock(3)` (an illegal factor) does
not return `InvalidDivisor` with zero hardware access — it panics, one
write of `0x80` is observed at the register, and the stored value of
`CLKPR` is changed from `0x00` to `0x80`. -/
theorem enable_clock_3_panics_after_writing :
    (enable_clock ⟨⟨0x00, 0x00⟩, true⟩ 3).outcome = Outcome.panicked ∧
    (enable_clock ⟨⟨0x00, 0x00⟩, true⟩ 3).final.regs.CLKPR = 0x80 ∧
    writeSeq (enable_clock ⟨⟨0x00, 0x00⟩, true⟩ 3) = [(Reg.CLKPR, 0x80)] := by
  decide

/-- C1 (amended): for every requested factor outside the legal table, the
call does not return an error value: it panics at the `unreachable!()`
branch after having disabled interrupts, volatile-read `CLKPR`, written
`0x80` to it, and executed the `__nop()`; the register is left holding
`0x80` and the interrupt flag is left cleared. -/
theorem enable_clock_invalid_divisor_panics (m : Machine) (freq : Nat)
    (h : clkpsCode freq = none) :
    (enable_clock m freq).outcome = Outcome.panicked ∧
    (enable_clock m freq).final.regs.CLKPR = 0x80 ∧
    (enable_clock m freq).final.intEnabled = false ∧
    (enable_clock m freq).events =
      [Ev.read Reg.CLKPR m.regs.CLKPR, Ev.write Reg.CLKPR 0x80, Ev.nop] := by
  simp [enable_clock, h, Status.disable, Status.new]

/-- C1 witness: the amended statement instantiated at the illegal factor
`7` from a machine with `CLKPR = 0x21` and interrupts enabled. -/
theorem enable_clock_invalid_divisor_panics_witness :
    (enable_clock ⟨⟨0x21, 0x44⟩, true⟩ 7).outcome = Outcome.panicked ∧
    (enable_clock ⟨⟨0x21, 0x44⟩, true⟩ 7).final.regs.CLKPR = 0x80 ∧
    (enable_clock ⟨⟨0x21, 0x44⟩, true⟩ 7).final.intEnabled = false ∧
    (enable_clock ⟨⟨0x21, 0x44⟩, true⟩ 7).events =
      [Ev.read Reg.CLKPR 0x21, Ev.write Reg.CLKPR 0x80, Ev.nop] :=
  enable_clock_invalid_divisor_panics ⟨⟨0x21, 0x44⟩, true⟩ 7 (by decide)

/-- C2: for every legal factor mapping to select code `c` per the fixed
table, the call returns normally and afterwards the low 4 bits of the
stored `CLKPR` value equal `c` while bit 7 equals 0. -/
theorem enable_clock_success_sets_select_code (m : Machine) (freq c : Nat)
    (h : clkpsCode freq = some c) :
    (enable_clock m freq).outcome = Outcome.ok ∧
    (enable_clock m freq).final.regs.CLKPR % 16 = c ∧
    Nat.testBit (enable_clock m freq).final.regs.CLKPR 7 = false := by
  have hc : c ≤ 8 := clkpsCode_le_8 freq c h
  have hout : (enable_clock m freq).outcome = Outcome.ok := by
    simp [enable_clock, h, Status.disable, Status.enable, Status.new]
  have hfin : (enable_clock m freq).final = ⟨⟨c, m.regs.OSCCAL⟩, m.intEnabled⟩ := by
    simp [enable_clock, h, Status.disable, Status.enable, Status.new]
  refine ⟨hout, ?_, ?_⟩
  · rw [hfin]
    show c % 16 = c
    exact Nat.mod_eq_of_lt (by omega)
  · rw [hfin]
    show Nat.testBit c 7 = false
    exact Nat.testBit_eq_false_of_lt (lt_of_le_of_lt hc (by norm_num))

/-- C2 witness: the theorem instantiated at factor `8` (select code
`0x03`) from a machine with `CLKPR = 0xFF` and interrupts enabled. -/
theorem enable_clock_success_sets_select_code_witness :
    (enable_clock ⟨⟨0xFF, 0x00⟩, true⟩ 8).outcome = Outcome.ok ∧
    (enable_clock ⟨⟨0xFF, 0x00⟩, true⟩ 8).final.regs.CLKPR % 16 = 0x03 ∧
    Nat.testBit (enable_clock ⟨⟨0xFF, 0x00⟩, true⟩ 8).final.regs.CLKPR 7
      = false :=
  enable_clock_success_sets_select_code ⟨⟨0xFF, 0x00⟩, true⟩ 8 0x03 (by decide)

/-- C3: on every call that returns (all legal factors; illegal factors
panic and never return), the global interrupt-enable flag after the call
equals the flag before it — in particular a caller that entered with
interrupts disabled does not have them force-enabled, since the modelled
guard restores the prior state. -/
theorem enable_clock_restores_interrupt_flag (m : Machine) (freq : Nat)
    (h : (enable_clock m freq).outcome = Outcome.ok) :
    (enable_clock m freq).final.intEnabled = m.intEnabled := by
  cases hc : clkpsCode freq with
  | some c =>
      simp [enable_clock, hc, Status.disable, Status.enable, Status.new]
  | none =>
      simp [enable_clock, hc, Status.disable, Status.new] at h

/-- C3 witness: the theorem instantiated at factor `32` from a machine
that enters with interrupts disabled; the flag is still disabled (not
force-enabled) after the call. -/
theorem enable_clock_restores_interrupt_flag_witness :
    (enable_clock ⟨⟨0x00, 0x00⟩, false⟩ 32).outcome = Outcome.ok ∧
    (enable_clock ⟨⟨0x00, 0x00⟩, false⟩ 32).final.intEnabled = false :=
  ⟨by decide,
   enable_clock_restores_interrupt_flag ⟨⟨0x00, 0x00⟩, false⟩ 32 (by decide)⟩

/-- C4 counterexample: at the illegal factor `5` the call terminates by
panic — a termination mode other than success or a clean `InvalidDivisor`
return — and hardware state was already mutated before the failure (one
write was issued), so a partial-failure state is exposed. -/
theorem enable_clock_5_panic_termination :
    (enable_clock ⟨⟨0x00, 0x00⟩, true⟩ 5).outcome = Outcome.panicked ∧
    writeSeq (enable_clock ⟨⟨0x00, 0x00⟩, true⟩ 5) ≠ [] := by
  decide

/-- C4 (amended): every call either completes the full protocol normally
(legal factor: exactly the two protocol writes, returning success) or
panics at `unreachable!()` (illegal factor) — but the panic happens only
after the `0x80` write, leaving a partial state: `CLKPR = 0x80` and
interrupts disabled. -/
theorem enable_clock_termination_dichotomy (m : Machine) (freq : Nat) :
    (∃ c, clkpsCode freq = some c ∧
      (enable_clock m freq).outcome = Outcome.ok ∧
      writeSeq (enable_clock m freq) = [(Reg.CLKPR, 0x80), (Reg.CLKPR, c)]) ∨
    (clkpsCode freq = none ∧
      (enable_clock m freq).outcome = Outcome.panicked ∧
      (enable_clock m freq).final.regs.CLKPR = 0x80 ∧
      (enable_clock m freq).final.intEnabled = false) := by
  cases h : clkpsCode freq with
  | some c =>
      exact Or.inl ⟨c, rfl, by
        simp [enable_clock, h, writeSeq, writeOf, Status.disable,
              Status.enable, Status.new]⟩
  | none =>
      exact Or.inr ⟨rfl, by
        simp [enable_clock, h, Status.disable, Status.new]⟩

/-- C7 counterexample: at the illegal factor `6` the protocol reaches a
terminal state (the panic point, after the call has stopped) in which bit
7 of `CLKPR` (the change-enable flag, CLKPCE) is still set — so the flag
is not set only transiently between the two writes of a successful call. -/
theorem enable_clock_6_change_enable_left_set :
    (enable_clock ⟨⟨0x00, 0x00⟩, true⟩ 6).outcome = Outcome.panicked ∧
    Nat.testBit (enable_clock ⟨⟨0x00, 0x00⟩, true⟩ 6).final.regs.CLKPR 7
      = true := by
  decide

/-- C7 (amended): over every state the protocol passes through, whenever
bit 7 of `CLKPR` (the change-enable flag) is set, the global interrupt
flag is cleared — so no interrupt handler can observe the transient
`0x80` state; in a successful call the flag is cleared again by the
committing write, but a failed call panics with the flag still set (and
interrupts still disabled). -/
theorem change_enable_implies_interrupts_disabled (m : Machine) (freq : Nat) :
    ((enable_clock m freq).states.all
      fun s => !(Nat.testBit s.regs.CLKPR 7) || !s.intEnabled) = true := by
  cases h : clkpsCode freq with
  | some c =>
      have hc : c ≤ 8 := clkpsCode_le_8 freq c h
      have hbit : Nat.testBit c 7 = false :=
        Nat.testBit_eq_false_of_lt (lt_of_le_of_lt hc (by norm_num))
      simp [enable_clock, h, Status.disable, Status.enable, Status.new,
            List.all, hbit]
  | none =>
      simp [enable_clock, h, Status.disable, Status.new, List.all]

/-- C8: on every call with a legal factor, the event trace is exactly the
volatile read, the `0x80` change-enable write, one `__nop()` stabilization
cycle, and the committing write of the select code — so the delay sits
between the two writes and nothing else (in particular no suspension
point) intervenes. -/
theorem nop_between_the_two_writes (m : Machine) (freq c : Nat)
    (h : clkpsCode freq = some c) :
    (enable_clock m freq).events =
      [Ev.read Reg.CLKPR m.regs.CLKPR, Ev.write Reg.CLKPR 0x80, Ev.nop,
       Ev.write Reg.CLKPR c] := by
  simp [enable_clock, h, Status.disable, Status.enable, Status.new]

/-- C8 witness: the theorem instantiated at factor `4` (select code
`0x02`) from a machine with `CLKPR = 0x11` and interrupts disabled. -/
theorem nop_between_the_two_writes_witness :
    (enable_clock ⟨⟨0x11, 0x22⟩, false⟩ 4).events =
      [Ev.read Reg.CLKPR 0x11, Ev.write Reg.CLKPR 0x80, Ev.nop,
       Ev.write Reg.CLKPR 0x02] :=
  nop_between_the_two_writes ⟨⟨0x11, 0x22⟩, false⟩ 4 0x02 (by decide)

/-- C9: on every call, with any factor, the first two events are the
volatile read of `CLKPR` (its value returned and discarded) followed by
the `0x80` write; the trace holds exactly one read; and the observable
behaviour (write sequence and outcome) does not depend on the value read
— replacing the initial `CLKPR` value by any `v` changes neither. -/
theorem first_access_is_discarded_read (m : Machine) (freq v : Nat) :
    (enable_clock m freq).events.take 2 =
      [Ev.read Reg.CLKPR m.regs.CLKPR, Ev.write Reg.CLKPR 0x80] ∧
    ((enable_clock m freq).events.filter isRead).length = 1 ∧
    writeSeq (enable_clock ⟨⟨v, m.regs.OSCCAL⟩, m.intEnabled⟩ freq) =
      writeSeq (enable_clock m freq) ∧
    (enable_clock ⟨⟨v, m.regs.OSCCAL⟩, m.intEnabled⟩ freq).outcome =
      (enable_clock m freq).outcome := by
  cases h : clkpsCode freq with
  | some c =>
      simp [enable_clock, h, writeSeq, writeOf, isRead, List.filter,
            Status.disable, Status.enable, Status.new]
  | none =>
      simp [enable_clock, h, writeSeq, writeOf, isRead, List.filter,
            Status.disable, Status.new]

/-- C10: on every call, with any factor, the adjacent oscillator
calibration byte is untouched: the final `OSCCAL` value equals the
initial one, no event in the trace reads or writes `OSCCAL`, and every
intermediate state carries the initial `OSCCAL` value. -/
theorem osccal_never_accessed (m : Machine) (freq : Nat) :
    (enable_clock m freq).final.regs.OSCCAL = m.regs.OSCCAL ∧
    ((enable_clock m freq).events.all fun e => !(isOSCCALAccess e)) = true ∧
    ((enable_clock m freq).states.all
      fun s => s.regs.OSCCAL == m.regs.OSCCAL) = true := by
  cases h : clkpsCode freq with
  | some c =>
      simp [enable_clock, h, isOSCCALAccess, List.all,
            Status.disable, Status.enable, Status.new]
  | none =>
      simp [enable_clock, h, isOSCCALAccess, List.all,
            Status.disable, Status.new]
